import Mathlib

/-!
Verification of the task dispatch and lifecycle-tracking subsystem of the
research-ai-platform repository (backend/django_core/core).

The embedding below follows the source files:
  - core/tasks.py   : analyze_paper_task, generate_literature_review_task,
                      health_check_services
  - core/views.py   : ResearchPaperViewSet.analyze, AIAnalysisTaskViewSet.cancel
  - core/models.py  : AIAnalysisTask, ResearchPaper, ServiceIntegration

Network responses, exceptions raised by the HTTP client, and failures of
database saves are modelled as explicit environment inputs, so every run of a
task is a pure function of the initial records and the environment.
-/

namespace ResearchAI

/-- Status choices of AIAnalysisTask in core/models.py (default is queued). -/
inductive Status where
  | queued
  | processing
  | completed
  | failed
deriving DecidableEq, Repr

/-- processing_status choices of ResearchPaper in core/models.py. -/
inductive PStatus where
  | pending
  | processing
  | completed
  | failed
deriving DecidableEq, Repr

/-- The fields of the AIAnalysisTask record that the core mutates.
JSON objects are modelled as association lists of string pairs. -/
structure AIAnalysisTask where
  task_type : String
  parameters : List (String × String)
  status : Status
  results : List (String × String)
  error_message : String
  fastapi_task_id : String
  agent_used : String
deriving DecidableEq, Repr

/-- A fresh AIAnalysisTask as created by AIAnalysisTask.objects.create when no
status is passed: model defaults from core/models.py (status queued, empty
results, blank error_message, blank fastapi_task_id, blank agent_used). -/
def newAnalysisTask (ttype : String) (params : List (String × String)) : AIAnalysisTask :=
  { task_type := ttype
    parameters := params
    status := Status.queued
    results := []
    error_message := ""
    fastapi_task_id := ""
    agent_used := "" }

/-- The fields of the ResearchPaper record that analyze_paper_task reads and
writes. The relevance score is carried as an opaque copied value. -/
structure ResearchPaper where
  title : String
  abstract : String
  authors : List String
  doi : String
  keywords : List String
  research_areas : List String
  relevance_score : Option Int
  processing_status : PStatus
deriving DecidableEq, Repr

/-- The JSON body of a 200 response from the analyze-paper endpoint, with the
optional keys analyze_paper_task looks up (result.get and in-checks). -/
structure RemoteBody where
  analysis : Option (List (String × String))
  agent_used : Option String
  keywords : Option (List String)
  research_areas : Option (List String)
  relevance_score : Option Int
deriving DecidableEq, Repr

/-- Outcome of one httpx post from the worker: either an HTTP response with a
status code and body, or an exception raised by the client (timeout,
connection error), carrying its message. -/
inductive SubmitOutcome where
  | response (code : Nat) (body : RemoteBody)
  | netError (msg : String)
deriving DecidableEq, Repr

/-- Environment of a single execution of analyze_paper_task: the submit
outcome, whether paper.save raises (some message) during the projection step,
and whether the task save inside the except handler succeeds (the handler
wraps it in a try with a bare pass). -/
structure AttemptEnv where
  outcome : SubmitOutcome
  paperSaveError : Option String
  failedSaveOk : Bool
deriving DecidableEq, Repr

/-- What one execution of the task body reports to the Celery retry logic. -/
inductive AttemptResult where
  | success
  | failure (msg : String)
deriving DecidableEq, Repr

/-- The message of the exception raised on a non-200 response in
analyze_paper_task (tasks.py line 64). -/
def errorText (code : Nat) : String :=
  "FastAPI service error: " ++ toString code

/-- The except handler of analyze_paper_task (tasks.py lines 66 to 76): it
refetches the task, sets status failed and error_message, and saves; the save
is wrapped in a try whose except is a bare pass, so a failing save leaves the
persisted task unchanged. -/
def handleFailure (task : AIAnalysisTask) (msg : String) (saveOk : Bool) : AIAnalysisTask :=
  if saveOk then { task with status := Status.failed, error_message := msg } else task

/-- Projection of the 200 response body onto the owning paper (tasks.py lines
52 to 58): keywords, research_areas and relevance_score are copied when the
corresponding key is present, and processing_status is set to completed. -/
def applyProjection (paper : ResearchPaper) (body : RemoteBody) : ResearchPaper :=
  { paper with
    keywords := body.keywords.getD paper.keywords
    research_areas := body.research_areas.getD paper.research_areas
    relevance_score :=
      match body.relevance_score with
      | some v => some v
      | none => paper.relevance_score
    processing_status := PStatus.completed }

/-- One execution of the body of analyze_paper_task (tasks.py lines 18 to 76).
On a 200 response the task is saved with results, completed status and agent,
then the paper projection is saved; if that save raises, the except handler
overwrites the already-saved task. On a non-200 response or a client
exception, the except handler records the failure. The returned AttemptResult
tells the retry logic whether an exception escaped the try block. -/
def attemptOnce (task : AIAnalysisTask) (paper : ResearchPaper) (env : AttemptEnv) :
    AIAnalysisTask × ResearchPaper × AttemptResult :=
  match env.outcome with
  | SubmitOutcome.response code body =>
    if code = 200 then
      let task1 :=
        { task with
          results := body.analysis.getD []
          status := Status.completed
          agent_used := body.agent_used.getD "unknown" }
      match env.paperSaveError with
      | none => (task1, applyProjection paper body, AttemptResult.success)
      | some m => (handleFailure task1 m env.failedSaveOk, paper, AttemptResult.failure m)
    else
      (handleFailure task (errorText code) env.failedSaveOk, paper,
        AttemptResult.failure (errorText code))
  | SubmitOutcome.netError msg =>
    (handleFailure task msg env.failedSaveOk, paper, AttemptResult.failure msg)

/-- Celery max_retries parameter of analyze_paper_task (tasks.py line 12). -/
def maxRetries : Nat := 3

/-- The Celery retry loop around analyze_paper_task: retries counts prior
retries (0 on the first execution); after a failed execution the task is
re-run while retries < max_retries (tasks.py lines 79 to 84). The list holds
the environment of each successive execution; the returned Nat counts the
network submit calls that were issued. -/
def runFrom (retries : Nat) (task : AIAnalysisTask) (paper : ResearchPaper) :
    List AttemptEnv → AIAnalysisTask × ResearchPaper × Nat
  | [] => (task, paper, 0)
  | env :: rest =>
    let r := attemptOnce task paper env
    match r.2.2 with
    | AttemptResult.success => (r.1, r.2.1, 1)
    | AttemptResult.failure _ =>
      if retries < maxRetries then
        let next := runFrom (retries + 1) r.1 r.2.1 rest
        (next.1, next.2.1, next.2.2 + 1)
      else
        (r.1, r.2.1, 1)

/-- A full delivery of analyze_paper_task, starting with zero prior retries. -/
def analyze_paper_task (task : AIAnalysisTask) (paper : ResearchPaper)
    (envs : List AttemptEnv) : AIAnalysisTask × ResearchPaper × Nat :=
  runFrom 0 task paper envs

/-- Outcome the remote cancel of a task would have had. FastAPIService.
cancel_task in core/services.py is an async coroutine, and the cancel view
invokes it without await (views.py line 126), so its body never executes: the
view observes neither outcome. The type is kept so theorems can quantify over
it and show the view is independent of it. -/
inductive CancelOutcome where
  | ok
  | raised (msg : String)
deriving DecidableEq, Repr

/-- The response shapes the core views can return. -/
inductive ApiResponse where
  | success (msg : String)
  | error500 (msg : String)
  | error400 (msg : String)
deriving DecidableEq, Repr

/-- AIAnalysisTaskViewSet.cancel (views.py lines 117 to 141): only a task in
queued or processing is eligible. The call fastapi_service.cancel_task at
line 126 invokes an async coroutine without await, so the remote request is
never issued and cannot raise; the try therefore always reaches the status
mutation, and the view sets the task to failed with the message Cancelled by
user and returns a 200 response, whatever the remote outcome would have been.
Other states get a 400 response. -/
def cancelView (task : AIAnalysisTask) (_remote : CancelOutcome) :
    AIAnalysisTask × ApiResponse :=
  if task.status = Status.queued ∨ task.status = Status.processing then
    ({ task with status := Status.failed, error_message := "Cancelled by user" },
      ApiResponse.success "Task cancelled")
  else
    (task, ApiResponse.error400 "Cannot cancel task in current state")

/-- The task record created by ResearchPaperViewSet.analyze (views.py lines 71
to 76) before any call to the FastAPI service: objects.create with task_type
paper_analysis and no explicit status, hence the model default queued. -/
def analyzeCreate (params : List (String × String)) : AIAnalysisTask :=
  newAnalysisTask "paper_analysis" params

/-- The task record created by generate_literature_review_task (tasks.py lines
98 to 103) before any call to the FastAPI service: objects.create with an
explicit status of processing. -/
def litReviewCreate (params : List (String × String)) : AIAnalysisTask :=
  { task_type := "literature_review"
    parameters := params
    status := Status.processing
    results := []
    error_message := ""
    fastapi_task_id := ""
    agent_used := "" }

/-- The fields of a ServiceIntegration record (core/models.py lines 180 to
197) that the health sweep reads and writes; timestamps are opaque Nats. -/
structure ServiceIntegration where
  service_name : String
  service_url : String
  is_active : Bool
  is_healthy : Bool
  last_health_check : Option Nat
  total_requests : Nat
  failed_requests : Nat
deriving DecidableEq, Repr

/-- Outcome of the health probe of one service: an HTTP response with a status
code, or an exception raised by the client. -/
inductive HealthOutcome where
  | response (code : Nat)
  | raised (msg : String)
deriving DecidableEq, Repr

/-- The per-service body of health_check_services (tasks.py lines 148 to 167):
on a response, is_healthy records whether the code was 200; on a raised
exception, is_healthy is set to false; in both branches last_health_check is
set to the current time, and the record is saved after the try block. -/
def checkService (now : Nat) (s : ServiceIntegration) (o : HealthOutcome) :
    ServiceIntegration :=
  match o with
  | HealthOutcome.response code =>
    { s with is_healthy := code == 200, last_health_check := some now }
  | HealthOutcome.raised _ =>
    { s with is_healthy := false, last_health_check := some now }

/-- State of all ServiceIntegration rows after one run of
health_check_services (tasks.py lines 138 to 169): the sweep filters on
is_active and updates each active row with its own probe outcome; inactive
rows are not touched. Each list entry pairs a row with the outcome its probe
would have. -/
def health_check_services (now : Nat)
    (entries : List (ServiceIntegration × HealthOutcome)) : List ServiceIntegration :=
  entries.map (fun e => if e.1.is_active then checkService now e.1 e.2 else e.1)

/-! Concrete fixtures used by witnesses and counterexamples. -/

/-- A 200 body with no keys of interest. -/
def emptyBody : RemoteBody :=
  { analysis := none
    agent_used := none
    keywords := none
    research_areas := none
    relevance_score := none }

/-- A 200 body with analysis, agent and all projection keys present. -/
def goodBody : RemoteBody :=
  { analysis := some [("summary", "strong empirical results")]
    agent_used := some "paper-analyzer"
    keywords := some ["transformers"]
    research_areas := some ["nlp"]
    relevance_score := some 8 }

/-- Execution environment where the submit call gets an HTTP 503 and every
database save succeeds. -/
def env503 : AttemptEnv :=
  { outcome := SubmitOutcome.response 503 emptyBody
    paperSaveError := none
    failedSaveOk := true }

/-- Execution environment where the submit call gets an HTTP 400 and every
database save succeeds. -/
def env400 : AttemptEnv :=
  { outcome := SubmitOutcome.response 400 emptyBody
    paperSaveError := none
    failedSaveOk := true }

/-- Execution environment where the submit call gets a 200 with a full body
and every database save succeeds. -/
def envOk : AttemptEnv :=
  { outcome := SubmitOutcome.response 200 goodBody
    paperSaveError := none
    failedSaveOk := true }

/-- A concrete pending paper. -/
def paper0 : ResearchPaper :=
  { title := "Paper A"
    abstract := "a study of things"
    authors := ["Ada"]
    doi := "10.1/a"
    keywords := []
    research_areas := []
    relevance_score := none
    processing_status := PStatus.pending }

/-- A freshly created paper-analysis task, still queued. -/
def freshTask : AIAnalysisTask :=
  newAnalysisTask "paper_analysis" []

/-- A task that already failed once, with the failure recorded. -/
def failedTask0 : AIAnalysisTask :=
  { freshTask with status := Status.failed, error_message := "FastAPI service error: 503" }

/-- A task that already completed, with results recorded. -/
def completedTask0 : AIAnalysisTask :=
  { freshTask with status := Status.completed, results := [("summary", "done")] }

/-- C1 counterexample: a task whose status is the terminal failed is handed to
another execution of analyze_paper_task (a retry or late reconcile); a 200
response overwrites the terminal status with completed, so terminal states are
not immutable. -/
theorem C1_counterexample :
    failedTask0.status = Status.failed
    ∧ (attemptOnce failedTask0 paper0 envOk).1.status = Status.completed :=
  ⟨rfl, rfl⟩

/-- C1 (amended): once a task is in a terminal state, a cancel request does
not change it — the cancel view rejects it with a 400 response and returns the
task unchanged. Retry and reconcile are not guarded this way. -/
theorem C1_terminal_cancel_rejected (task : AIAnalysisTask) (remote : CancelOutcome)
    (h : task.status = Status.completed ∨ task.status = Status.failed) :
    cancelView task remote = (task, ApiResponse.error400 "Cannot cancel task in current state") := by
  unfold cancelView
  rw [if_neg]
  rcases h with h | h <;> rw [h] <;> intro hc <;> rcases hc with hc | hc <;> exact Status.noConfusion hc

/-- C1 witness: the cancel rejection at a concrete completed task. -/
theorem C1_witness :
    cancelView completedTask0 CancelOutcome.ok
      = (completedTask0, ApiResponse.error400 "Cannot cancel task in current state") :=
  C1_terminal_cancel_rejected completedTask0 CancelOutcome.ok (Or.inl rfl)

/-- C2 counterexample: with the submit call answering 503 on every execution,
the worker issues 4 network calls (the initial attempt plus max_retries = 3
retries), not 3 as claimed. -/
theorem C2_counterexample :
    (analyze_paper_task freshTask paper0 [env503, env503, env503, env503]).2.2 ≠ 3 := by
  decide

/-- C2 (amended): if every submit attempt fails with HTTP 503, the task ends
failed with error_message FastAPI service error: 503, and exactly 4 submit
calls are made (the initial attempt plus 3 retries). -/
theorem C2_transient_exhaustion (task : AIAnalysisTask) (paper : ResearchPaper) :
    (analyze_paper_task task paper [env503, env503, env503, env503]).1.status = Status.failed
    ∧ (analyze_paper_task task paper [env503, env503, env503, env503]).1.error_message
        = "FastAPI service error: 503"
    ∧ (analyze_paper_task task paper [env503, env503, env503, env503]).2.2 = 4 :=
  ⟨rfl, rfl, rfl⟩

/-- C3 counterexample: a 400 rejection on the first attempt does not stop the
worker — with 400 on every execution, 4 network calls are made, so a second
call does happen. -/
theorem C3_counterexample :
    (analyze_paper_task freshTask paper0 [env400, env400, env400, env400]).2.2 ≠ 1 := by
  decide

/-- C3 (amended): a 4xx rejection is treated exactly like a transient failure:
the task is marked failed with the error recorded after each attempt, but the
submit is retried up to 3 times, for 4 network calls in total. -/
theorem C3_rejection_retried (task : AIAnalysisTask) (paper : ResearchPaper) :
    (analyze_paper_task task paper [env400, env400, env400, env400]).1.status = Status.failed
    ∧ (analyze_paper_task task paper [env400, env400, env400, env400]).1.error_message
        = "FastAPI service error: 400"
    ∧ (analyze_paper_task task paper [env400, env400, env400, env400]).2.2 = 4 :=
  ⟨rfl, rfl, rfl⟩

/-- C5: a cancel request accepted on a task in queued or processing forces the
task into failed with the message Cancelled by user and a 200 response, for
every outcome the best-effort remote cancel would have had — the un-awaited
coroutine never runs, so it cannot gate the mutation. -/
theorem C5_cancel_forces_failed (task : AIAnalysisTask) (remote : CancelOutcome)
    (h : task.status = Status.queued ∨ task.status = Status.processing) :
    (cancelView task remote).1.status = Status.failed
    ∧ (cancelView task remote).1.error_message = "Cancelled by user"
    ∧ (cancelView task remote).2 = ApiResponse.success "Task cancelled" := by
  unfold cancelView
  rw [if_pos h]
  exact ⟨rfl, rfl, rfl⟩

/-- C5 witness: the forced transition at a concrete queued task, with the
remote cancel outcome taken to be a failure — the task still ends failed with
the cancellation message. -/
theorem C5_witness :
    (cancelView freshTask (CancelOutcome.raised "timeout")).1.status = Status.failed
    ∧ (cancelView freshTask (CancelOutcome.raised "timeout")).1.error_message
        = "Cancelled by user"
    ∧ (cancelView freshTask (CancelOutcome.raised "timeout")).2
        = ApiResponse.success "Task cancelled" :=
  C5_cancel_forces_failed freshTask (CancelOutcome.raised "timeout") (Or.inl rfl)

/-- The error message of a non-200 response is never the empty string. -/
theorem errorText_ne_empty (code : Nat) : errorText code ≠ "" := by
  intro h
  have hl : (errorText code).length = 0 := by rw [h]; rfl
  rw [errorText, String.length_append] at hl
  have h23 : ("FastAPI service error: ").length = 23 := rfl
  omega

/-- C4 counterexample: a first attempt failing with 503 records an
error_message; a second, successful attempt sets the task to completed but the
success branch never clears error_message, so a completed task carries a
non-empty errorReason — the claimed iff fails. -/
theorem C4_counterexample :
    (analyze_paper_task freshTask paper0 [env503, envOk]).1.status = Status.completed
    ∧ (analyze_paper_task freshTask paper0 [env503, envOk]).1.error_message ≠ "" :=
  ⟨rfl, by decide⟩

/-- C4 (amended): after a single successful attempt the task is completed with
results equal to the analysis object of the response (empty when absent) and
error_message left at its prior value; after a single non-200 attempt the task
is failed with a non-empty error_message. Neither field is reset on the
opposite transition, so the two iff claims do not hold across retries. -/
theorem C4_terminal_fields (task : AIAnalysisTask) (paper : ResearchPaper) (code : Nat)
    (body : RemoteBody) (h : code ≠ 200) :
    (attemptOnce task paper ⟨SubmitOutcome.response 200 body, none, true⟩).1.status
        = Status.completed
    ∧ (attemptOnce task paper ⟨SubmitOutcome.response 200 body, none, true⟩).1.results
        = body.analysis.getD []
    ∧ (attemptOnce task paper ⟨SubmitOutcome.response 200 body, none, true⟩).1.error_message
        = task.error_message
    ∧ (attemptOnce task paper ⟨SubmitOutcome.response code body, none, true⟩).1.status
        = Status.failed
    ∧ (attemptOnce task paper ⟨SubmitOutcome.response code body, none, true⟩).1.error_message
        = errorText code
    ∧ errorText code ≠ "" := by
  refine ⟨rfl, rfl, rfl, ?_, ?_, errorText_ne_empty code⟩ <;>
    simp [attemptOnce, handleFailure, h]

/-- C4 witness: the per-attempt field discipline at a concrete task, paper and
non-200 code. -/
theorem C4_witness :
    (attemptOnce freshTask paper0 ⟨SubmitOutcome.response 200 goodBody, none, true⟩).1.status
        = Status.completed
    ∧ (attemptOnce freshTask paper0 ⟨SubmitOutcome.response 200 goodBody, none, true⟩).1.results
        = goodBody.analysis.getD []
    ∧ (attemptOnce freshTask paper0 ⟨SubmitOutcome.response 200 goodBody, none, true⟩).1.error_message
        = freshTask.error_message
    ∧ (attemptOnce freshTask paper0 ⟨SubmitOutcome.response 503 goodBody, none, true⟩).1.status
        = Status.failed
    ∧ (attemptOnce freshTask paper0 ⟨SubmitOutcome.response 503 goodBody, none, true⟩).1.error_message
        = errorText 503
    ∧ errorText 503 ≠ "" :=
  C4_terminal_fields freshTask paper0 503 goodBody (by decide)

/-- C6 counterexample: the remote returns 200 and the task is saved as
completed, but the paper projection save raises; the except handler then
overwrites the task to failed, so the completed status does not survive a
projection failure. -/
theorem C6_counterexample :
    (attemptOnce freshTask paper0
        ⟨SubmitOutcome.response 200 goodBody, some "database write failed", true⟩).1.status
      ≠ Status.completed := by
  decide

/-- C6 (amended): a failure while projecting result fields onto the paper is
caught by the same exception handler as submit failures: it overwrites the
already-saved completed status with failed, records the projection error as
error_message, and leaves the paper unchanged. -/
theorem C6_projection_failure_reverts (task : AIAnalysisTask) (paper : ResearchPaper)
    (body : RemoteBody) (m : String) :
    (attemptOnce task paper ⟨SubmitOutcome.response 200 body, some m, true⟩).1.status
        = Status.failed
    ∧ (attemptOnce task paper ⟨SubmitOutcome.response 200 body, some m, true⟩).1.error_message
        = m
    ∧ (attemptOnce task paper ⟨SubmitOutcome.response 200 body, some m, true⟩).2.1 = paper :=
  ⟨rfl, rfl, rfl⟩

/-- C7 counterexample: re-invoking the worker on a task already completed is
not a no-op: network calls are issued and the terminal state is overwritten
(here all attempts return 503, ending in failed). -/
theorem C7_counterexample :
    (analyze_paper_task completedTask0 paper0 [env503, env503, env503, env503]).2.2 ≠ 0
    ∧ (analyze_paper_task completedTask0 paper0 [env503, env503, env503, env503]).1
        ≠ completedTask0 :=
  ⟨by decide, by decide⟩

/-- C7 (amended): the worker never checks the current status of the task
before submitting: for every starting task, whatever its status, at least one
network call is issued. -/
theorem C7_submit_always_calls (task : AIAnalysisTask) (paper : ResearchPaper)
    (env : AttemptEnv) (rest : List AttemptEnv) :
    1 ≤ (analyze_paper_task task paper (env :: rest)).2.2 := by
  show 1 ≤ (runFrom 0 task paper (env :: rest)).2.2
  rcases h : (attemptOnce task paper env).2.2 with _ | m
  · simp [runFrom, h]
  · simp [runFrom, h, maxRetries]

/-- C8: the health sweep is pointwise — the updated record of an active
service depends only on its own probe outcome (the sweep of a list decomposes
around any entry), the current timestamp is always recorded, and a raised
probe records healthy = false. Errors in one entry cannot affect another. -/
theorem C8_sweep_isolated (now : Nat)
    (pre post : List (ServiceIntegration × HealthOutcome))
    (s : ServiceIntegration) (o : HealthOutcome) (hs : s.is_active = true) :
    health_check_services now (pre ++ (s, o) :: post)
        = health_check_services now pre
            ++ checkService now s o :: health_check_services now post
    ∧ (checkService now s o).last_health_check = some now
    ∧ ∀ msg, o = HealthOutcome.raised msg → (checkService now s o).is_healthy = false := by
  refine ⟨?_, ?_, ?_⟩
  · simp [health_check_services, hs]
  · cases o <;> rfl
  · rintro msg rfl; rfl

/-- A concrete active ServiceIntegration row, parameterized by name. -/
def mkService (n : String) : ServiceIntegration :=
  { service_name := n
    service_url := "http://" ++ n ++ ".internal"
    is_active := true
    is_healthy := true
    last_health_check := none
    total_requests := 12
    failed_requests := 2 }

/-- C8 witness: a sweep over five active services where the third probe raises
still processes every entry in isolation; the third records unhealthy with the
current timestamp. -/
theorem C8_witness :
    health_check_services 7
        ([(mkService "search", HealthOutcome.response 200),
          (mkService "agents", HealthOutcome.response 500)]
          ++ (mkService "review", HealthOutcome.raised "boom")
            :: [(mkService "index", HealthOutcome.response 200),
                (mkService "export", HealthOutcome.response 200)])
      = health_check_services 7
          [(mkService "search", HealthOutcome.response 200),
            (mkService "agents", HealthOutcome.response 500)]
          ++ checkService 7 (mkService "review") (HealthOutcome.raised "boom")
            :: health_check_services 7
                [(mkService "index", HealthOutcome.response 200),
                  (mkService "export", HealthOutcome.response 200)]
    ∧ (checkService 7 (mkService "review") (HealthOutcome.raised "boom")).last_health_check
        = some 7
    ∧ ∀ msg, HealthOutcome.raised "boom" = HealthOutcome.raised msg →
        (checkService 7 (mkService "review") (HealthOutcome.raised "boom")).is_healthy = false :=
  C8_sweep_isolated 7
    [(mkService "search", HealthOutcome.response 200),
      (mkService "agents", HealthOutcome.response 500)]
    [(mkService "index", HealthOutcome.response 200),
      (mkService "export", HealthOutcome.response 200)]
    (mkService "review") (HealthOutcome.raised "boom") rfl

/-- C10: the health sweep preserves the cumulative request counters of every
record, active or not: the multiset of (total_requests, failed_requests) pairs
is unchanged row by row. -/
theorem C10_counters_frame (now : Nat)
    (entries : List (ServiceIntegration × HealthOutcome)) :
    (health_check_services now entries).map (fun s => (s.total_requests, s.failed_requests))
      = entries.map (fun e => (e.1.total_requests, e.1.failed_requests)) := by
  induction entries with
  | nil => rfl
  | cons e rest ih =>
    rcases e with ⟨s, o⟩
    by_cases hs : s.is_active
    · cases o <;> simpa [health_check_services, checkService, hs] using ih
    · simpa [health_check_services, hs] using ih

/-- C9 counterexample: the literature-review flow creates its task store entry
directly in processing, never in queued. -/
theorem C9_counterexample : (litReviewCreate []).status ≠ Status.queued := by
  decide

/-- C9 (amended): the paper-analysis endpoint creates its task in queued (the
model default) before any submission, but the literature-review flow creates
its task directly in processing. -/
theorem C9_creation_states :
    (∀ params, (analyzeCreate params).status = Status.queued)
    ∧ (∀ params, (litReviewCreate params).status = Status.processing) :=
  ⟨fun _ => rfl, fun _ => rfl⟩

end ResearchAI
